import Mathlib

/-!
Verification of the HP E3631A triple-output power-supply driver
(`pymeasure/instruments/hp/hpE3631A.py`).

The driver wraps a transport collaborator and adds (a) SCPI-backed
properties with optional validation/value mapping and (b) channel-scoped
convenience operations (`set_current`, `set_voltage`, `meas_current`,
`meas_voltage`) that select an output channel before acting on it.

The embedding below models the driver state (the dynamic per-property
validation ranges), the instrument-side state (active channel, per-channel
setpoints, output-enable flag) and an explicit trace of transport events,
so that claims about command sequences, round-trip counts and raised errors
can be stated and settled.  Numeric values are rationals.
-/

namespace HPE3631A

/-- A transport / timing event produced by one driver operation, in order.
`queryEv` is a command sent with a response read back (one round-trip);
`writeStr` is a fully formatted textual write command (e.g. the `%s`-style
`INST:SEL` selection write); `writeNum` is a write command with one numeric
`%g` argument carrying the transmitted value; `writeNum2` is a write
command with two numeric `%g` arguments (the `:APPly %g,%g` set); `sleepEv`
is the fixed settling pause in milliseconds (not a transport operation). -/
inductive Ev where
  | queryEv (cmd : String)
  | writeStr (cmd : String)
  | writeNum (cmd : String) (v : ℚ)
  | writeNum2 (cmd : String) (v w : ℚ)
  | sleepEv (ms : ℕ)
deriving DecidableEq, Repr

/-- Whether an event is the settling pause (not a transport operation). -/
def Ev.isSleep : Ev → Bool
  | .sleepEv _ => true
  | _ => false

/-- The transport operations of a trace: every event except the pauses. -/
def transportOps (t : List Ev) : List Ev :=
  t.filter (fun e => ¬ e.isSleep)

/-- Python exceptions the driver can raise.  `notImplementedError` is the
generic unimplemented signal `NotImplementedError`; `valueError` models
`ValueError` raised by strict validators / value-map failures. -/
inductive PyErr where
  | notImplementedError
  | valueError (msg : String)
deriving DecidableEq, Repr

/-- Decidable equality for `Except` results, so that operation outcomes can
be evaluated on concrete inputs. -/
instance {ε α : Type} [DecidableEq ε] [DecidableEq α] : DecidableEq (Except ε α) := fun x y =>
  match x, y with
  | .error a, .error b =>
      if h : a = b then .isTrue (by rw [h]) else .isFalse (fun he => h (Except.error.inj he))
  | .error _, .ok _ => .isFalse (fun he => Except.noConfusion he)
  | .ok _, .error _ => .isFalse (fun he => Except.noConfusion he)
  | .ok a, .ok b =>
      if h : a = b then .isTrue (by rw [h]) else .isFalse (fun he => h (Except.ok.inj he))

/-- Per-channel rational values stored by the instrument (one per output). -/
structure Triple where
  ch0 : ℚ
  ch1 : ℚ
  ch2 : ℚ
deriving DecidableEq, Repr

/-- Read the value of channel `c` (0, 1 or 2). -/
def Triple.get (t : Triple) (c : ℤ) : ℚ :=
  if c = 0 then t.ch0 else if c = 1 then t.ch1 else if c = 2 then t.ch2 else 0

/-- Write the value of channel `c` (0, 1 or 2); no-op for other indices. -/
def Triple.set (t : Triple) (c : ℤ) (v : ℚ) : Triple :=
  if c = 0 then { t with ch0 := v }
  else if c = 1 then { t with ch1 := v }
  else if c = 2 then { t with ch2 := v }
  else t

/-- Modelled from the spec: the physical instrument, an external
collaborator not under `src/`.  It owns the active-channel register
("all voltage/current setpoint writes and voltage/current measurement
reads are interpreted by the physical instrument as applying to whichever
channel is currently active") and the per-channel setpoints echoed back by
the query commands. -/
structure Inst where
  active : ℤ
  volts : Triple
  currs : Triple
  outputOn : Bool
deriving DecidableEq, Repr

/-- The driver-side mutable state: the dynamic validation ranges of the
`voltage_setpoint` and `current_limit` properties (`dynamic=True` in the
source; the `*_values` instance attributes assigned by `set_current` /
`set_voltage`). -/
structure Driver where
  voltage_setpoint_values : ℚ × ℚ
  current_limit_values : ℚ × ℚ
deriving DecidableEq, Repr

/-- Combined state: driver-side property configuration plus the mirrored
instrument state. -/
structure S where
  drv : Driver
  inst : Inst
deriving DecidableEq, Repr

/-- `_output_ch = {0: "P6V", 1: "P25V", 2: "N25V"}` (source line 99),
as a partial map mirroring the Python dict. -/
def output_ch : ℤ → Option String
  | 0 => some ("P6V")
  | 1 => some ("P25V")
  | 2 => some ("N25V")
  | _ => none

/-- The inverse of `_output_ch`, used by the `map_values=True` get side of
`select_output` to translate a wire token back to the caller-facing int. -/
def output_ch_inv (t : String) : Option ℤ :=
  if t = ("P6V") then some 0
  else if t = ("P25V") then some 1
  else if t = ("N25V") then some 2
  else none

/-- `_voltage_range = {0: (0, 6.18), 1: (0, 25.75), 2: (-25.75, 0)}`
(source line 100). -/
def voltage_range : ℤ → Option (ℚ × ℚ)
  | 0 => some (0, mkRat 618 100)
  | 1 => some (0, mkRat 2575 100)
  | 2 => some (mkRat (-2575) 100, 0)
  | _ => none

/-- `_current_range = {0: (0, 5.15), 1: (0, 1.03), 2: (0, 1.03)}`
(source line 101). -/
def current_range : ℤ → Option (ℚ × ℚ)
  | 0 => some (0, mkRat 515 100)
  | 1 => some (0, mkRat 103 100)
  | 2 => some (0, mkRat 103 100)
  | _ => none

/-- Modelled from the spec: `truncated_range`, the validator of
`voltage_setpoint` and `current_limit`, lives in
`pymeasure/instruments/validators.py`, which is not under `src/`.  The
spec's property table says the value is "numeric, truncated to configurable
[min,max]": values inside the range pass through, values outside are
truncated to the nearer bound.  It never raises. -/
def truncated_range (value : ℚ) (values : ℚ × ℚ) : ℚ :=
  let lo := min values.1 values.2
  let hi := max values.1 values.2
  if value < lo then lo else if hi < value then hi else value

/-- Modelled from the spec: the set side of the `select_output` property
(`Instrument.control` with `strict_discrete_set` and `map_values=True` is
pymeasure core, not under `src/`).  Per the spec it validates the value
against the fixed enumeration {0,1,2} (raising a validation error
otherwise), maps it to its wire token, issues the `INST:SEL %s` write, and
the instrument makes that channel active. -/
def set_select_output (c : ℤ) (s : S) : Except PyErr S × List Ev :=
  match output_ch c with
  | none => (.error (.valueError ("value not in discrete set")), [])
  | some tok =>
      (.ok { s with inst := { s.inst with active := c } },
       [Ev.writeStr (("INST:SEL ") ++ tok)])

/-- Modelled from the spec: the get side of `select_output`: one `INST:SEL?`
query round-trip; the instrument answers with the token of its active
channel and the driver inverse-maps the token to the caller-facing int. -/
def get_select_output (s : S) : Except PyErr ℤ × List Ev :=
  let resp := (output_ch s.inst.active).getD ("")
  match output_ch_inv resp with
  | none => (.error (.valueError ("unmapped response")), [Ev.queryEv ("INST:SEL?")])
  | some i => (.ok i, [Ev.queryEv ("INST:SEL?")])

/-- Modelled from the spec: the set side of `voltage_setpoint`
(`:SOUR:VOLT %g`, validator `truncated_range` against the dynamic
`voltage_setpoint_values` range).  Validation truncates before the write is
formatted and issued; the instrument stores the transmitted value for its
active channel. -/
def set_voltage_setpoint (value : ℚ) (s : S) : S × List Ev :=
  let v := truncated_range value s.drv.voltage_setpoint_values
  ({ s with inst := { s.inst with volts := s.inst.volts.set s.inst.active v } },
   [Ev.writeNum (":SOUR:VOLT") v])

/-- Modelled from the spec: the get side of `voltage_setpoint`: one
`:SOUR:VOLT?` query; the instrument answers with the stored setpoint of its
active channel. -/
def get_voltage_setpoint (s : S) : ℚ × List Ev :=
  (s.inst.volts.get s.inst.active, [Ev.queryEv (":SOUR:VOLT?")])

/-- Modelled from the spec: the set side of `current_limit`
(`:SOUR:CURR %g`, validator `truncated_range` against the dynamic
`current_limit_values` range). -/
def set_current_limit (value : ℚ) (s : S) : S × List Ev :=
  let v := truncated_range value s.drv.current_limit_values
  ({ s with inst := { s.inst with currs := s.inst.currs.set s.inst.active v } },
   [Ev.writeNum (":SOUR:CURR") v])

/-- Modelled from the spec: the get side of `current_limit`: one
`:SOUR:CURR?` query answered with the active channel's stored limit. -/
def get_current_limit (s : S) : ℚ × List Ev :=
  (s.inst.currs.get s.inst.active, [Ev.queryEv (":SOUR:CURR?")])

/-- Modelled from the spec: the `current` measurement property: one
`:MEAS:CURR?` query returning the active channel's output current (modelled
as the stored per-channel value; only the trace matters to the claims). -/
def get_current_meas (s : S) : ℚ × List Ev :=
  (s.inst.currs.get s.inst.active, [Ev.queryEv (":MEAS:CURR?")])

/-- Modelled from the spec: the `voltage` measurement property: one
`:MEAS:VOLT?` query returning the active channel's output voltage. -/
def get_voltage_meas (s : S) : ℚ × List Ev :=
  (s.inst.volts.get s.inst.active, [Ev.queryEv (":MEAS:VOLT?")])

/-- Modelled from the spec: the set side of `applied` (`:APPly %g,%g`):
the value is a (voltage, current) tuple with no declared validator, so both
numbers are transmitted unchanged and the instrument stores them for its
active channel. -/
def set_applied (p : ℚ × ℚ) (s : S) : S × List Ev :=
  ({ s with inst := { s.inst with
                        volts := s.inst.volts.set s.inst.active p.1,
                        currs := s.inst.currs.set s.inst.active p.2 } },
   [Ev.writeNum2 (":APPly") p.1 p.2])

/-- Modelled from the spec: the get side of `applied`: one `:APPly?` query;
the instrument answers with the active channel's voltage and current as two
comma-separated quote-wrapped decimals, which the `get_process` (modelled
value-level here, and string-level by `applied_get` below) turns into the
pair of numbers. -/
def get_applied (s : S) : (ℚ × ℚ) × List Ev :=
  ((s.inst.volts.get s.inst.active, s.inst.currs.get s.inst.active),
   [Ev.queryEv (":APPly?")])

/-- Modelled from the spec: the set side of `set_output_on`
(`OUTPUT %d`, boolean mapped to 1/0 by `map_values`). -/
def set_set_output_on (b : Bool) (s : S) : S × List Ev :=
  ({ s with inst := { s.inst with outputOn := b } },
   [Ev.writeNum ("OUTPut") (if b then 1 else 0)])

/-- Modelled from the spec: the get side of `set_output_on`: one `OUTPut?`
query; wire value 1 maps back to `true`, 0 to `false`. -/
def get_set_output_on (s : S) : Option Bool × List Ev :=
  let resp : ℤ := if s.inst.outputOn then 1 else 0
  ((if resp = 1 then some true else if resp = 0 then some false else none),
   [Ev.queryEv ("OUTPut?")])

/-- `set_current(value, select)` (source lines 147-159): raises
`NotImplementedError` when `select not in range(3)`; otherwise assigns
`select_output = select`, then `current_limit_values = _current_range.get(select)`,
then `current_limit = value`. -/
def set_current (value : ℚ) (select : ℤ) (s : S) : Except PyErr S × List Ev :=
  if ¬ (0 ≤ select ∧ select < 3) then (.error .notImplementedError, [])
  else
    match set_select_output select s with
    | (.error e, t1) => (.error e, t1)
    | (.ok s1, t1) =>
        let s2 :=
          match current_range select with
          | some r => { s1 with drv := { s1.drv with current_limit_values := r } }
          | none => s1
        let (s3, t2) := set_current_limit value s2
        (.ok s3, t1 ++ t2)

/-- `set_voltage(value, select)` (source lines 161-175): raises
`NotImplementedError` when `select not in range(3)`; otherwise assigns
`select_output = select`, then `voltage_setpoint_values = _voltage_range.get(select)`,
then `voltage_setpoint = value`. -/
def set_voltage (value : ℚ) (select : ℤ) (s : S) : Except PyErr S × List Ev :=
  if ¬ (0 ≤ select ∧ select < 3) then (.error .notImplementedError, [])
  else
    match set_select_output select s with
    | (.error e, t1) => (.error e, t1)
    | (.ok s1, t1) =>
        let s2 :=
          match voltage_range select with
          | some r => { s1 with drv := { s1.drv with voltage_setpoint_values := r } }
          | none => s1
        let (s3, t2) := set_voltage_setpoint value s2
        (.ok s3, t1 ++ t2)

/-- `meas_current(select)` (source lines 177-192): raises
`NotImplementedError` when `select not in range(3)`; otherwise queries
`select_output` fresh and, if it already equals `select`, issues the
measurement read immediately; else writes the selector, sleeps 0.2 s, then
issues the measurement read. -/
def meas_current (select : ℤ) (s : S) : Except PyErr (ℚ × S) × List Ev :=
  if ¬ (0 ≤ select ∧ select < 3) then (.error .notImplementedError, [])
  else
    match get_select_output s with
    | (.error e, t1) => (.error e, t1)
    | (.ok cur, t1) =>
        if cur = select then
          let (v, t2) := get_current_meas s
          (.ok (v, s), t1 ++ t2)
        else
          match set_select_output select s with
          | (.error e, t2) => (.error e, t1 ++ t2)
          | (.ok s1, t2) =>
              let (v, t4) := get_current_meas s1
              (.ok (v, s1), t1 ++ t2 ++ [Ev.sleepEv 200] ++ t4)

/-- `meas_voltage(select)` (source lines 194-209): identical to
`meas_current` with the voltage measurement read. -/
def meas_voltage (select : ℤ) (s : S) : Except PyErr (ℚ × S) × List Ev :=
  if ¬ (0 ≤ select ∧ select < 3) then (.error .notImplementedError, [])
  else
    match get_select_output s with
    | (.error e, t1) => (.error e, t1)
    | (.ok cur, t1) =>
        if cur = select then
          let (v, t2) := get_voltage_meas s
          (.ok (v, s), t1 ++ t2)
        else
          match set_select_output select s with
          | (.error e, t2) => (.error e, t1 ++ t2)
          | (.ok s1, t2) =>
              let (v, t4) := get_voltage_meas s1
              (.ok (v, s1), t1 ++ t2 ++ [Ev.sleepEv 200] ++ t4)

/-- Remove every double-quote character, mirroring
`y.replace('"', "")` in the `applied` get_process. -/
def stripQuotes (s : String) : String :=
  String.mk (s.toList.filter (fun c => c ≠ '\"'))

/-- Split a character list at a separator character (used for the
comma-splitting of the wire response and the decimal point of a number). -/
def splitOnChar (sep : Char) : List Char → List Char → List (List Char)
  | [], acc => [acc.reverse]
  | c :: rest, acc =>
      if c = sep then acc.reverse :: splitOnChar sep rest []
      else splitOnChar sep rest (c :: acc)

/-- The string value of a digit list, `none` unless all characters are
decimal digits (the empty list reads as 0, as in `float("1.")`). -/
def digitsVal : List Char → Option ℕ → Option ℕ
  | [], acc => acc
  | c :: rest, acc =>
      if c.isDigit then
        digitsVal rest (acc.map (fun a => a * 10 + (c.toNat - 48)))
      else none

/-- Modelled from the spec: Python `float(...)` on the decimal strings of
the wire protocol ("two comma-separated, double-quote-wrapped decimal
numbers"), as an exact rational: optional sign, integer digits, optional
fractional digits. -/
def parseFloat (s : String) : Option ℚ :=
  let cs := s.toList
  let (neg, body) :=
    match cs with
    | '-' :: rest => (true, rest)
    | '+' :: rest => (false, rest)
    | _ => (false, cs)
  let signed : ℤ → ℤ := fun n => if neg then -n else n
  match splitOnChar '.' body [] with
  | [ip] =>
      if ip.isEmpty then none
      else (digitsVal ip (some 0)).map (fun n => mkRat (signed n) 1)
  | [ip, fp] =>
      if ip.isEmpty ∧ fp.isEmpty then none
      else
        match digitsVal ip (some 0), digitsVal fp (some 0) with
        | some n, some f =>
            some (mkRat (signed (n * 10 ^ fp.length + f)) (10 ^ fp.length))
        | _, _ => none
  | _ => none

/-- The `get_process` of `applied` (source line 96):
`lambda y: (float(y[0].replace('"', "")), float(y[1].replace('"', "")))`,
applied to the comma-split fields of the response. -/
def applied_get_process (y : List String) : Option (ℚ × ℚ) :=
  match y with
  | y0 :: y1 :: _ =>
      match parseFloat (stripQuotes y0), parseFloat (stripQuotes y1) with
      | some a, some b => some (a, b)
      | _, _ => none
  | _ => none

/-- The full get of `applied`: split the wire response on commas, then run
the `get_process` on the fields. -/
def applied_get (resp : String) : Option (ℚ × ℚ) :=
  applied_get_process ((splitOnChar ',' resp.toList []).map String.mk)

/-- A default state: fresh driver (default ranges (0, 6.18) and (0, 5.15)
from the property declarations), instrument on channel 0 with zeroed
setpoints and output off. -/
def init : S :=
  { drv := { voltage_setpoint_values := (0, mkRat 618 100),
             current_limit_values := (0, mkRat 515 100) },
    inst := { active := 0, volts := ⟨0, 0, 0⟩, currs := ⟨0, 0, 0⟩,
              outputOn := false } }

/-- The wire token of a channel index (helper for theorem statements). -/
def tok (c : ℤ) : String := (output_ch c).getD ("")

/-- The voltage range of a channel index (helper for theorem statements). -/
def vr (c : ℤ) : ℚ × ℚ := (voltage_range c).getD (0, 0)

/-- The current range of a channel index (helper for theorem statements). -/
def cr (c : ℤ) : ℚ × ℚ := (current_range c).getD (0, 0)

/-- C1 counterexample: at the out-of-range channels 3 and -1, every
channel-scoped operation raises the generic unimplemented signal
`NotImplementedError`; no dedicated `InvalidChannelError` class exists in
the driver, refuting the claimed error kind. -/
theorem invalid_channel_error_kind_cex :
    set_current 0 3 init = (.error .notImplementedError, [])
    ∧ set_voltage 0 3 init = (.error .notImplementedError, [])
    ∧ meas_current 3 init = (.error .notImplementedError, [])
    ∧ meas_voltage (-1) init = (.error .notImplementedError, []) := by
  decide

/-- C1 (amended): for every channel index outside {0,1,2}, each of
`set_current`, `set_voltage`, `meas_current` and `meas_voltage` raises the
generic `NotImplementedError` (not a dedicated channel error) before
issuing any transport command — the trace is empty and no state change
occurs. -/
theorem invalid_channel_raises (v : ℚ) (c : ℤ) (s : S)
    (h : ¬ (0 ≤ c ∧ c < 3)) :
    set_current v c s = (.error .notImplementedError, [])
    ∧ set_voltage v c s = (.error .notImplementedError, [])
    ∧ meas_current c s = (.error .notImplementedError, [])
    ∧ meas_voltage c s = (.error .notImplementedError, []) := by
  simp [set_current, set_voltage, meas_current, meas_voltage, h]

/-- C1 witness: the amended theorem applied at channel -1. -/
theorem invalid_channel_raises_witness :
    (¬ ((0:ℤ) ≤ -1 ∧ (-1:ℤ) < 3))
    ∧ (set_current 5 (-1) init = (.error .notImplementedError, [])
       ∧ set_voltage 5 (-1) init = (.error .notImplementedError, [])
       ∧ meas_current (-1) init = (.error .notImplementedError, [])
       ∧ meas_voltage (-1) init = (.error .notImplementedError, [])) :=
  ⟨by decide, invalid_channel_raises 5 (-1) init (by decide)⟩

/-- C2: for every valid channel and every value, `set_voltage` (resp.
`set_current`) performs exactly: (1) the unconditional selector write
(`INST:SEL <token>`, issued for every prior state, in particular when the
channel is already active), (2) installation of the channel-specific range
into the dynamic property range, (3) the setpoint write whose transmitted
value is the input validated (truncated) against that just-installed
channel-specific range. -/
theorem set_ops_sequence (v : ℚ) (c : ℤ) (s : S)
    (h : c = 0 ∨ c = 1 ∨ c = 2) :
    set_voltage v c s =
      (.ok { drv := { s.drv with voltage_setpoint_values := vr c },
             inst := { s.inst with
                         active := c,
                         volts := s.inst.volts.set c (truncated_range v (vr c)) } },
       [Ev.writeStr (("INST:SEL ") ++ tok c),
        Ev.writeNum (":SOUR:VOLT") (truncated_range v (vr c))])
    ∧ set_current v c s =
      (.ok { drv := { s.drv with current_limit_values := cr c },
             inst := { s.inst with
                         active := c,
                         currs := s.inst.currs.set c (truncated_range v (cr c)) } },
       [Ev.writeStr (("INST:SEL ") ++ tok c),
        Ev.writeNum (":SOUR:CURR") (truncated_range v (cr c))]) := by
  rcases h with rfl | rfl | rfl <;>
    simp [set_voltage, set_current, set_select_output, set_voltage_setpoint,
          set_current_limit, output_ch, voltage_range, current_range,
          vr, cr, tok, Triple.set]

/-- C2 witness: the sequence theorem applied at value 7, channel 1, on the
default state. -/
theorem set_ops_sequence_witness :
    ((1:ℤ) = 0 ∨ (1:ℤ) = 1 ∨ (1:ℤ) = 2)
    ∧ (set_voltage 7 1 init =
        (.ok { drv := { init.drv with voltage_setpoint_values := vr 1 },
               inst := { init.inst with
                           active := 1,
                           volts := init.inst.volts.set 1 (truncated_range 7 (vr 1)) } },
         [Ev.writeStr (("INST:SEL ") ++ tok 1),
          Ev.writeNum (":SOUR:VOLT") (truncated_range 7 (vr 1))])
      ∧ set_current 7 1 init =
        (.ok { drv := { init.drv with current_limit_values := cr 1 },
               inst := { init.inst with
                           active := 1,
                           currs := init.inst.currs.set 1 (truncated_range 7 (cr 1)) } },
         [Ev.writeStr (("INST:SEL ") ++ tok 1),
          Ev.writeNum (":SOUR:CURR") (truncated_range 7 (cr 1))])) :=
  ⟨by decide, set_ops_sequence 7 1 init (by decide)⟩

/-- C3 counterexample: with channel 1 already active, `meas_current 1`
performs two transport round-trips (the fresh `INST:SEL?` selector query,
then the measurement read), not the claimed single round-trip. -/
theorem meas_same_channel_roundtrips_cex :
    (meas_current 1 { drv := { voltage_setpoint_values := (0, mkRat 618 100),
                               current_limit_values := (0, mkRat 515 100) },
                      inst := { active := 1, volts := ⟨0, 0, 0⟩,
                                currs := ⟨0, 0, 0⟩, outputOn := false } }).2
      = [Ev.queryEv ("INST:SEL?"), Ev.queryEv (":MEAS:CURR?")]
    ∧ (transportOps (meas_current 1
        { drv := { voltage_setpoint_values := (0, mkRat 618 100),
                   current_limit_values := (0, mkRat 515 100) },
          inst := { active := 1, volts := ⟨0, 0, 0⟩,
                    currs := ⟨0, 0, 0⟩, outputOn := false } }).2).length ≠ 1 := by
  decide

/-- C3 (amended): for every valid channel, when the instrument's active
channel already equals the requested one, `meas_current` (and likewise
`meas_voltage`) performs exactly two transport round-trips — the fresh
active-channel query (`INST:SEL?`), then the measurement read — with no
selection write and no settling delay. -/
theorem meas_same_channel_trace (c : ℤ) (s : S)
    (hc : c = 0 ∨ c = 1 ∨ c = 2) (ha : s.inst.active = c) :
    meas_current c s = (.ok (s.inst.currs.get c, s),
      [Ev.queryEv ("INST:SEL?"), Ev.queryEv (":MEAS:CURR?")])
    ∧ meas_voltage c s = (.ok (s.inst.volts.get c, s),
      [Ev.queryEv ("INST:SEL?"), Ev.queryEv (":MEAS:VOLT?")]) := by
  rcases hc with rfl | rfl | rfl <;>
    simp [meas_current, meas_voltage, get_select_output, get_current_meas,
          get_voltage_meas, output_ch, output_ch_inv, ha]

/-- C3 witness: the amended theorem applied at channel 2 with channel 2
already active. -/
theorem meas_same_channel_trace_witness :
    ((2:ℤ) = 0 ∨ (2:ℤ) = 1 ∨ (2:ℤ) = 2)
    ∧ ({ init with inst := { init.inst with active := 2 } } : S).inst.active = 2
    ∧ (meas_current 2 { init with inst := { init.inst with active := 2 } }
        = (.ok (({ init with inst := { init.inst with active := 2 } } : S).inst.currs.get 2,
                { init with inst := { init.inst with active := 2 } }),
           [Ev.queryEv ("INST:SEL?"), Ev.queryEv (":MEAS:CURR?")])
      ∧ meas_voltage 2 { init with inst := { init.inst with active := 2 } }
        = (.ok (({ init with inst := { init.inst with active := 2 } } : S).inst.volts.get 2,
                { init with inst := { init.inst with active := 2 } }),
           [Ev.queryEv ("INST:SEL?"), Ev.queryEv (":MEAS:VOLT?")])) :=
  ⟨by decide, by decide,
   meas_same_channel_trace 2 { init with inst := { init.inst with active := 2 } }
     (by decide) (by decide)⟩

/-- C4 counterexample: with channel 0 active, `meas_current 1` performs
three transport operations (the fresh `INST:SEL?` selector query, the
selection write, the measurement read), not the claimed two round-trips. -/
theorem meas_diff_channel_roundtrips_cex :
    (meas_current 1 init).2
      = [Ev.queryEv ("INST:SEL?"), Ev.writeStr ("INST:SEL P25V"),
         Ev.sleepEv 200, Ev.queryEv (":MEAS:CURR?")]
    ∧ (transportOps (meas_current 1 init).2).length ≠ 2 := by
  decide

/-- C4 (amended): for every valid channel, when the instrument's active
channel (itself a valid index) differs from the requested one,
`meas_current` (and likewise `meas_voltage`) performs exactly three
transport operations in order — the fresh active-channel query, the
channel-selection write, then the measurement read — with the fixed 200 ms
pause between the selection write and the measurement read. -/
theorem meas_diff_channel_trace (c : ℤ) (s : S)
    (hc : c = 0 ∨ c = 1 ∨ c = 2)
    (ha : s.inst.active = 0 ∨ s.inst.active = 1 ∨ s.inst.active = 2)
    (hne : s.inst.active ≠ c) :
    meas_current c s =
      (.ok (s.inst.currs.get c, { s with inst := { s.inst with active := c } }),
       [Ev.queryEv ("INST:SEL?"), Ev.writeStr (("INST:SEL ") ++ tok c),
        Ev.sleepEv 200, Ev.queryEv (":MEAS:CURR?")])
    ∧ meas_voltage c s =
      (.ok (s.inst.volts.get c, { s with inst := { s.inst with active := c } }),
       [Ev.queryEv ("INST:SEL?"), Ev.writeStr (("INST:SEL ") ++ tok c),
        Ev.sleepEv 200, Ev.queryEv (":MEAS:VOLT?")]) := by
  rcases hc with rfl | rfl | rfl <;> rcases ha with h1 | h1 | h1 <;>
    first
      | exact absurd h1 hne
      | simp [meas_current, meas_voltage, get_select_output, set_select_output,
              get_current_meas, get_voltage_meas, output_ch, output_ch_inv,
              tok, Triple.get, h1]

/-- C4 witness: the amended theorem applied at channel 1 on the default
state (channel 0 active). -/
theorem meas_diff_channel_trace_witness :
    ((1:ℤ) = 0 ∨ (1:ℤ) = 1 ∨ (1:ℤ) = 2)
    ∧ (init.inst.active = 0 ∨ init.inst.active = 1 ∨ init.inst.active = 2)
    ∧ init.inst.active ≠ 1
    ∧ (meas_current 1 init =
        (.ok (init.inst.currs.get 1, { init with inst := { init.inst with active := 1 } }),
         [Ev.queryEv ("INST:SEL?"), Ev.writeStr (("INST:SEL ") ++ tok 1),
          Ev.sleepEv 200, Ev.queryEv (":MEAS:CURR?")])
      ∧ meas_voltage 1 init =
        (.ok (init.inst.volts.get 1, { init with inst := { init.inst with active := 1 } }),
         [Ev.queryEv ("INST:SEL?"), Ev.writeStr (("INST:SEL ") ++ tok 1),
          Ev.sleepEv 200, Ev.queryEv (":MEAS:VOLT?")])) :=
  ⟨by decide, by decide, by decide,
   meas_diff_channel_trace 1 init (by decide) (by decide) (by decide)⟩

/-- C5 counterexample: `set_voltage(-1.0, 0)` does not fail with
`ValidationError`; the `truncated_range` validator truncates -1.0 to the
channel-0 range bound 0 and the setpoint write is transmitted. -/
theorem out_of_range_value_not_rejected_cex :
    (set_voltage (mkRat (-1) 1) 0 init).1.isOk = true
    ∧ (set_voltage (mkRat (-1) 1) 0 init).2 =
        [Ev.writeStr ("INST:SEL P6V"), Ev.writeNum (":SOUR:VOLT") 0] := by
  decide

/-- C5 (amended): setpoint writes are validated against the channel-specific
range installed by `set_voltage`: channel 2 accepts negative voltages in
[-25.75, 0] and transmits them unchanged, while on channel 0 (range
[0, 6.18]) the out-of-range value -1.0 is truncated to the bound 0 and
transmitted — it is not rejected with a `ValidationError`. -/
theorem channel_range_validation (v : ℚ) (s : S)
    (h2 : mkRat (-2575) 100 ≤ v ∧ v ≤ 0) :
    (set_voltage v 2 s).2 =
      [Ev.writeStr ("INST:SEL N25V"), Ev.writeNum (":SOUR:VOLT") v]
    ∧ (set_voltage (mkRat (-1) 1) 0 s).1.isOk = true
    ∧ (set_voltage (mkRat (-1) 1) 0 s).2 =
      [Ev.writeStr ("INST:SEL P6V"), Ev.writeNum (":SOUR:VOLT") 0] := by
  obtain ⟨hlo, hhi⟩ := h2
  have hmin : min (mkRat (-2575) 100) (0:ℚ) = mkRat (-2575) 100 := by decide
  have hmax : max (mkRat (-2575) 100) (0:ℚ) = 0 := by decide
  have htr : truncated_range v (mkRat (-2575) 100, 0) = v := by
    simp only [truncated_range, hmin, hmax]
    rw [if_neg (not_lt.mpr hlo), if_neg (not_lt.mpr hhi)]
  have h0 : truncated_range (-1 : ℚ) ((0 : ℚ), mkRat 618 100) = 0 := by decide
  refine ⟨?_, ?_, ?_⟩ <;>
    simp [set_voltage, set_select_output, set_voltage_setpoint, output_ch,
          voltage_range, htr, h0, Except.isOk, Except.toBool]

/-- C5 witness: the amended theorem applied at v = -10 on the default
state. -/
theorem channel_range_validation_witness :
    (mkRat (-2575) 100 ≤ mkRat (-10) 1 ∧ mkRat (-10) 1 ≤ 0)
    ∧ ((set_voltage (mkRat (-10) 1) 2 init).2 =
        [Ev.writeStr ("INST:SEL N25V"), Ev.writeNum (":SOUR:VOLT") (mkRat (-10) 1)]
      ∧ (set_voltage (mkRat (-1) 1) 0 init).1.isOk = true
      ∧ (set_voltage (mkRat (-1) 1) 0 init).2 =
        [Ev.writeStr ("INST:SEL P6V"), Ev.writeNum (":SOUR:VOLT") 0]) :=
  ⟨by decide, channel_range_validation (mkRat (-10) 1) init (by decide)⟩

/-- C6: set-then-get round-trips for every simple settable property, equal
up to the declared validation/truncation: `voltage_setpoint` and
`current_limit` echo the truncated value, `select_output` echoes the set
channel index, `set_output_on` echoes the set boolean, `applied` (which
declares no validator) echoes the set (voltage, current) pair exactly; in
particular setting `voltage_setpoint` to 10.0 under the default [0, 6.18]
range transmits 6.18 and a subsequent get returns 6.18. -/
theorem property_set_get_roundtrip (x y : ℚ) (b : Bool) (c : ℤ) (s : S)
    (ha : s.inst.active = 0 ∨ s.inst.active = 1 ∨ s.inst.active = 2)
    (hc : c = 0 ∨ c = 1 ∨ c = 2) :
    (get_voltage_setpoint (set_voltage_setpoint x s).1).1
      = truncated_range x s.drv.voltage_setpoint_values
    ∧ (get_current_limit (set_current_limit x s).1).1
      = truncated_range x s.drv.current_limit_values
    ∧ Except.map (fun s1 => (get_select_output s1).1) (set_select_output c s).1
      = .ok (.ok c)
    ∧ (get_set_output_on (set_set_output_on b s).1).1 = some b
    ∧ (get_applied (set_applied (x, y) s).1).1 = (x, y)
    ∧ (set_voltage_setpoint 10 init).2
      = [Ev.writeNum (":SOUR:VOLT") (mkRat 618 100)]
    ∧ (get_voltage_setpoint (set_voltage_setpoint 10 init).1).1
      = mkRat 618 100 := by
  refine ⟨?_, ?_, ?_, ?_, ?_, by decide, by decide⟩
  · rcases ha with h1 | h1 | h1 <;>
      simp [get_voltage_setpoint, set_voltage_setpoint, Triple.get, Triple.set, h1]
  · rcases ha with h1 | h1 | h1 <;>
      simp [get_current_limit, set_current_limit, Triple.get, Triple.set, h1]
  · rcases hc with rfl | rfl | rfl <;>
      simp [get_select_output, set_select_output, output_ch, output_ch_inv,
            Except.map]
  · cases b <;> simp [get_set_output_on, set_set_output_on]
  · rcases ha with h1 | h1 | h1 <;>
      simp [get_applied, set_applied, Triple.get, Triple.set, h1]

/-- C6 witness: the round-trip theorem applied at x = 3, y = 4, b = true,
channel 1, on the default state. -/
theorem property_set_get_roundtrip_witness :
    (init.inst.active = 0 ∨ init.inst.active = 1 ∨ init.inst.active = 2)
    ∧ ((1:ℤ) = 0 ∨ (1:ℤ) = 1 ∨ (1:ℤ) = 2)
    ∧ ((get_voltage_setpoint (set_voltage_setpoint 3 init).1).1
        = truncated_range 3 init.drv.voltage_setpoint_values
      ∧ (get_current_limit (set_current_limit 3 init).1).1
        = truncated_range 3 init.drv.current_limit_values
      ∧ Except.map (fun s1 => (get_select_output s1).1) (set_select_output 1 init).1
        = .ok (.ok 1)
      ∧ (get_set_output_on (set_set_output_on true init).1).1 = some true
      ∧ (get_applied (set_applied (3, 4) init).1).1 = (3, 4)
      ∧ (set_voltage_setpoint 10 init).2
        = [Ev.writeNum (":SOUR:VOLT") (mkRat 618 100)]
      ∧ (get_voltage_setpoint (set_voltage_setpoint 10 init).1).1
        = mkRat 618 100) :=
  ⟨by decide, by decide,
   property_set_get_roundtrip 3 4 true 1 init (by decide) (by decide)⟩

/-- C7: `select_output` maps bidirectionally through the fixed table
0↔P6V, 1↔P25V, 2↔N25V: set(1) issues the wire token `P25V`; a get whose
wire response is `N25V` (active channel 2) returns the integer 2. -/
theorem select_output_bidirectional_map (s t : S) (h : t.inst.active = 2) :
    (set_select_output 1 s).2 = [Ev.writeStr ("INST:SEL P25V")]
    ∧ (get_select_output t).1 = .ok 2
    ∧ (get_select_output t).2 = [Ev.queryEv ("INST:SEL?")]
    ∧ output_ch 0 = some ("P6V") ∧ output_ch 1 = some ("P25V")
    ∧ output_ch 2 = some ("N25V")
    ∧ output_ch_inv ("P6V") = some 0 ∧ output_ch_inv ("P25V") = some 1
    ∧ output_ch_inv ("N25V") = some 2 := by
  refine ⟨?_, ?_, ?_, by decide, by decide, by decide,
          by decide, by decide, by decide⟩ <;>
    simp [set_select_output, get_select_output, output_ch, output_ch_inv, h]

/-- C7 witness: the mapping theorem applied to the default state and the
state with channel 2 active. -/
theorem select_output_bidirectional_map_witness :
    ({ init with inst := { init.inst with active := 2 } } : S).inst.active = 2
    ∧ ((set_select_output 1 init).2 = [Ev.writeStr ("INST:SEL P25V")]
      ∧ (get_select_output { init with inst := { init.inst with active := 2 } }).1 = .ok 2
      ∧ (get_select_output { init with inst := { init.inst with active := 2 } }).2
        = [Ev.queryEv ("INST:SEL?")]
      ∧ output_ch 0 = some ("P6V") ∧ output_ch 1 = some ("P25V")
      ∧ output_ch 2 = some ("N25V")
      ∧ output_ch_inv ("P6V") = some 0 ∧ output_ch_inv ("P25V") = some 1
      ∧ output_ch_inv ("N25V") = some 2) :=
  ⟨by decide,
   select_output_bidirectional_map init
     { init with inst := { init.inst with active := 2 } } (by decide)⟩

/-- C8: the get of `applied` parses the wire response `"1.500","0.200"`
(two comma-separated, double-quote-wrapped decimal numbers) into the exact
pair (1.5, 0.2) = (3/2, 1/5). -/
theorem applied_get_parses_quoted_pair :
    applied_get ("\"1.500\",\"0.200\"") = some (mkRat 3 2, mkRat 1 5) := by
  decide

/-- C9: no channel-scoped operation restores the previously active channel:
after a successful `set_current`, `set_voltage`, `meas_current` or
`meas_voltage` with channel c, the instrument's active-channel selector
holds c (so a subsequent direct read observes c, not the prior channel). -/
theorem scoped_ops_leave_requested_channel_active (v : ℚ) (c : ℤ) (s : S)
    (hc : c = 0 ∨ c = 1 ∨ c = 2)
    (ha : s.inst.active = 0 ∨ s.inst.active = 1 ∨ s.inst.active = 2) :
    Except.map (fun r => r.inst.active) (set_current v c s).1 = .ok c
    ∧ Except.map (fun r => r.inst.active) (set_voltage v c s).1 = .ok c
    ∧ Except.map (fun r => r.2.inst.active) (meas_current c s).1 = .ok c
    ∧ Except.map (fun r => r.2.inst.active) (meas_voltage c s).1 = .ok c := by
  rcases hc with rfl | rfl | rfl <;> rcases ha with h1 | h1 | h1 <;>
    simp [set_current, set_voltage, meas_current, meas_voltage,
          set_select_output, get_select_output, set_current_limit,
          set_voltage_setpoint, get_current_meas, get_voltage_meas,
          output_ch, output_ch_inv, current_range, voltage_range,
          Triple.set, Triple.get, h1, Except.map]

/-- C9 witness: the theorem applied at channel 2 on the default state
(channel 0 active beforehand). -/
theorem scoped_ops_leave_requested_channel_active_witness :
    ((2:ℤ) = 0 ∨ (2:ℤ) = 1 ∨ (2:ℤ) = 2)
    ∧ (init.inst.active = 0 ∨ init.inst.active = 1 ∨ init.inst.active = 2)
    ∧ (Except.map (fun r => r.inst.active) (set_current 1 2 init).1 = .ok 2
      ∧ Except.map (fun r => r.inst.active) (set_voltage 1 2 init).1 = .ok 2
      ∧ Except.map (fun r => r.2.inst.active) (meas_current 2 init).1 = .ok 2
      ∧ Except.map (fun r => r.2.inst.active) (meas_voltage 2 init).1 = .ok 2) :=
  ⟨by decide, by decide,
   scoped_ops_leave_requested_channel_active 1 2 init (by decide) (by decide)⟩

/-- C10: the channel-specific range installed by `set_current` (resp.
`set_voltage`) for channel c persists as the validation range of
`current_limit` (resp. `voltage_setpoint`) after the call returns: a
subsequent direct assignment to the property is validated (truncated)
against that same channel-c range, and the assignment itself leaves the
installed range in place. -/
theorem range_override_persists (v w : ℚ) (c : ℤ) (s : S)
    (hc : c = 0 ∨ c = 1 ∨ c = 2) :
    Except.map (fun s1 => (s1.drv.current_limit_values,
        (set_current_limit w s1).1.drv.current_limit_values,
        (set_current_limit w s1).2)) (set_current v c s).1
      = .ok (cr c, cr c, [Ev.writeNum (":SOUR:CURR") (truncated_range w (cr c))])
    ∧ Except.map (fun s1 => (s1.drv.voltage_setpoint_values,
        (set_voltage_setpoint w s1).1.drv.voltage_setpoint_values,
        (set_voltage_setpoint w s1).2)) (set_voltage v c s).1
      = .ok (vr c, vr c, [Ev.writeNum (":SOUR:VOLT") (truncated_range w (vr c))]) := by
  rcases hc with rfl | rfl | rfl <;>
    simp [set_current, set_voltage, set_select_output, set_current_limit,
          set_voltage_setpoint, output_ch, current_range, voltage_range,
          cr, vr, Except.map]

/-- C10 witness: the persistence theorem applied at v = 1, w = 2,
channel 1, on the default state. -/
theorem range_override_persists_witness :
    ((1:ℤ) = 0 ∨ (1:ℤ) = 1 ∨ (1:ℤ) = 2)
    ∧ (Except.map (fun s1 => (s1.drv.current_limit_values,
          (set_current_limit 2 s1).1.drv.current_limit_values,
          (set_current_limit 2 s1).2)) (set_current 1 1 init).1
        = .ok (cr 1, cr 1, [Ev.writeNum (":SOUR:CURR") (truncated_range 2 (cr 1))])
      ∧ Except.map (fun s1 => (s1.drv.voltage_setpoint_values,
          (set_voltage_setpoint 2 s1).1.drv.voltage_setpoint_values,
          (set_voltage_setpoint 2 s1).2)) (set_voltage 1 1 init).1
        = .ok (vr 1, vr 1, [Ev.writeNum (":SOUR:VOLT") (truncated_range 2 (vr 1))])) :=
  ⟨by decide, range_override_persists 1 2 1 init (by decide)⟩

end HPE3631A
